import Mathlib

/-!
Shallow embedding of the per-channel autotuner state machine of `APP_REFS.ino`
(class `ReferenceChannel`).  C++ machine integers are modelled as `Nat`/`Int`
(no overflow occurs at the reachable magnitudes except where noted), `float`
values are modelled as exact rationals (`ℚ`), and the two external
collaborators visible only through their interfaces — the frequency meter
(`FreqMeasure`) and the DAC driver (`OC::DAC`) — are modelled by per-tick
inputs, a conversion-function parameter, and explicit driver state carried in
the channel state.
-/

namespace OCRefs

/-- FREQ_MEASURE_TIMEOUT from `APP_REFS.ino` line 34. -/
def FREQ_MEASURE_TIMEOUT : Nat := 512

/-- ERROR_TIMEOUT = FREQ_MEASURE_TIMEOUT << 0x4 (`APP_REFS.ino` line 35). -/
def ERROR_TIMEOUT : Nat := FREQ_MEASURE_TIMEOUT <<< 4

/-- MAX_NUM_PASSES (`APP_REFS.ino` line 36). -/
def MAX_NUM_PASSES : Nat := 1500

/-- CONVERGE_PASSES (`APP_REFS.ino` line 37); compared against `int16_t` counters. -/
def CONVERGE_PASSES : Int := 5

/-- Modelled from the spec: the constant `OCTAVES` is defined by the DAC driver,
which is outside the two source files; the spec fixes `OCTAVES = 10`
(range −3 V … +7 V, 11 points). -/
def OCTAVES : Nat := 10

/-- kHistoryDepth (`APP_REFS.ino` line 91). -/
def kHistoryDepth : Nat := 10

/-- Enum `AUTO_CALIBRATION_STEP` (`APP_REFS.ino` lines 72-86), as numeric codes. -/
def DAC_VOLT_0_ARM : Nat := 0

/-- Second enumerator of `AUTO_CALIBRATION_STEP`. -/
def DAC_VOLT_0_BASELINE : Nat := 1

/-- First voltage step (−3 V). -/
def DAC_VOLT_3m : Nat := 2

/-- Voltage step −2 V. -/
def DAC_VOLT_2m : Nat := 3

/-- Voltage step −1 V. -/
def DAC_VOLT_1m : Nat := 4

/-- Last voltage step (+6 V, covering the +7 V target via index 10). -/
def DAC_VOLT_6 : Nat := 11

/-- `AUTO_CALIBRATION_STEP_LAST` (the table-commit state). -/
def AUTO_CALIBRATION_STEP_LAST : Nat := 12

/-- Modelled from the spec: `OC::DAC::kOctaveZero`, the index of the 0 V entry
in the per-channel octave table, lives in the DAC driver outside the two
source files; with the −3 V … +7 V range of the spec the 0 V entry is index 3. -/
def kOctaveZero : Nat := 3

/-- Clamp a natural number into `Fin 11` (array index for the 11-entry octave
tables).  All reachable indices used by the claims are in bounds; an
out-of-bounds C++ access would be undefined behaviour and is given the
arbitrary in-range value `n % 11` here. -/
def fidx (n : Nat) : Fin 11 := ⟨n % 11, Nat.mod_lt n (by norm_num)⟩

/-- Conversion of an `int32_t` value to the `int16_t` stored in
`auto_calibration_data_` (two's-complement wrap-around). -/
def wrap16 (x : Int) : Int := (x + 32768) % 65536 - 32768

/-- Modelled from the spec: `OC::vfx::ScrollingHistory<float, 10>::Push`.  The
class lives outside the two source files; the spec describes it as a ring
buffer of the last `HISTORY_DEPTH` emitted frequencies.  Only the sum of the
buffer is ever consumed, so the buffer is a length-10 list with the newest
sample first. -/
def history_push (x : ℚ) (h : List ℚ) : List ℚ := (x :: h).take kHistoryDepth

/-- Per-tick input from the external frequency meter: `FreqMeasure.available()`
and, when available, the period count returned by `FreqMeasure.read()`. -/
structure TickInput where
  available : Bool
  reading : Nat

/-- The mutable autotuner state of one `ReferenceChannel`
(`APP_REFS.ino` lines 549-575), restricted to the fields the autotuner
touches, together with the modelled per-channel DAC-driver state
(live-table selector, learned table, last raw code written), which the spec
describes as external interface state (`OC::DAC`). -/
structure State where
  autotuner_ : Bool
  autotuner_step_ : Nat
  auto_DAC_offset_error_ : Int
  auto_frequency_ : ℚ
  auto_target_frequencies_ : Fin 11 → ℚ
  auto_calibration_data_ : Fin 11 → Int
  auto_last_frequency_ : ℚ
  auto_error_ : Bool
  auto_ready_ : Bool
  autotune_completed_ : Bool
  auto_freq_sum_ : Nat
  auto_freq_count_ : Nat
  ticks_since_last_freq_ : Nat
  auto_num_passes_ : Nat
  F_correction_factor_ : Nat
  correction_direction_ : Bool
  correction_cnt_positive_ : Int
  correction_cnt_negative_ : Int
  octaves_cnt_ : Int
  history_ : List ℚ
  dac_live_auto_ : Bool
  dac_auto_table_ : Fin 11 → Int
  dac_out_ : Int

/-- `ReferenceChannel::reset_calibration_data` (`APP_REFS.ino` lines 229-235):
the loop `for i in 0..=OCTAVES` zeroes every entry of both 11-entry tables. -/
def reset_calibration_data (s : State) : State :=
  { s with auto_calibration_data_ := fun _ => 0
           auto_target_frequencies_ := fun _ => 0 }

/-- `ReferenceChannel::auto_reset_step` (`APP_REFS.ino` lines 193-200). -/
def auto_reset_step (s : State) : State :=
  { s with auto_num_passes_ := 0
           auto_DAC_offset_error_ := 0
           correction_direction_ := false
           correction_cnt_positive_ := 0
           correction_cnt_negative_ := 0
           F_correction_factor_ := 0xFF
           auto_ready_ := false }

/-- `ReferenceChannel::reset_autotuner` (`APP_REFS.ino` lines 202-219). -/
def reset_autotuner (s : State) : State :=
  reset_calibration_data
    { s with ticks_since_last_freq_ := 0
             auto_frequency_ := 0
             auto_last_frequency_ := 0
             auto_error_ := false
             auto_ready_ := false
             autotuner_ := false
             autotuner_step_ := 0
             F_correction_factor_ := 0xFF
             correction_direction_ := false
             correction_cnt_positive_ := 0
             correction_cnt_negative_ := 0
             octaves_cnt_ := 0
             auto_num_passes_ := 0
             auto_DAC_offset_error_ := 0
             autotune_completed_ := false }

/-- `ReferenceChannel::autotuner_arm` (`APP_REFS.ino` lines 181-184). -/
def autotuner_arm (status : Nat) (s : State) : State :=
  let s := reset_autotuner s
  { s with autotuner_ := status != 0 }

/-- `ReferenceChannel::autotuner_run` (`APP_REFS.ino` lines 186-191).
`OC::DAC::set_default_channel_calibration_data` selects the factory table as
live, modelled as `dac_live_auto_ := false`. -/
def autotuner_run (s : State) : State :=
  let s := { s with autotuner_step_ :=
                      if s.autotuner_ then DAC_VOLT_0_BASELINE else DAC_VOLT_0_ARM }
  if s.autotuner_step_ = DAC_VOLT_0_BASELINE then { s with dac_live_auto_ := false } else s

/-- `ReferenceChannel::get_voltage_scaling` (`APP_REFS.ino` lines 478-484):
`BUCHLA_SUPPORT` is not defined in `OC_options.h`, so the `#else` branch
returns `0x0`. -/
def get_voltage_scaling : Nat := 0

/-- Multipliers of the `case 1` (1.2 V/octave) branch of the target-table
switch (`APP_REFS.ino` lines 307-319); the `float` literals of the source are
transcribed as exact decimal rationals. -/
def vco_mult_1V2 : Fin 11 → ℚ :=
  ![0.1767766952966368931843, 0.3149802624737182976666, 0.5612310241546865086093, 1,
    1.7817974362806785482150, 3.1748021039363991668836, 5.6568542494923805818985,
    10.0793683991589855253324, 17.9593927729499718282113, 32, 57.0175179609817419645879]

/-- Multipliers of the `case 2` (2 V/octave) branch (`APP_REFS.ino` lines 320-332). -/
def vco_mult_2V : Fin 11 → ℚ :=
  ![0.3535533905932737863687, 0.5, 0.7071067811865475727373, 1,
    1.4142135623730951454746, 2, 2.8284271247461902909492, 4,
    5.6568542494923805818985, 8, 11.3137084989847611637970]

/-- Multipliers of the `case 0`/`default` (1 V/octave) branch
(`APP_REFS.ino` lines 333-346). -/
def vco_mult_1V : Fin 11 → ℚ :=
  ![0.125, 0.25, 0.5, 1, 2, 4, 8, 16, 32, 64, 128]

/-- The target-table builder: the `switch(get_voltage_scaling())` of
`APP_REFS.ino` lines 305-347, filling `auto_target_frequencies_` from the
baseline frequency. -/
def set_target_frequencies (scaling : Nat) (target_frequency : ℚ) : Fin 11 → ℚ :=
  match scaling with
  | 1 => fun k => target_frequency * vco_mult_1V2 k
  | 2 => fun k => target_frequency * vco_mult_2V k
  | _ => fun k => target_frequency * vco_mult_1V k

/-- The dynamic averaging window `_wait` of `ReferenceChannel::auto_frequency`
(`APP_REFS.ino` line 263). -/
def wait_window (F : Nat) : Nat :=
  if F = 1 then FREQ_MEASURE_TIMEOUT <<< 2 else FREQ_MEASURE_TIMEOUT >>> 2

/-- `ReferenceChannel::auto_frequency` (`APP_REFS.ino` lines 249-280).
`c2f` models the external pure function `FreqMeasure.countToFrequency`; the
returned `Bool` is `_f_result`.  `OC::ui._Poke()` and the visual
`ScrollingHistory::Update` calls have no autotuner-visible effect. -/
def auto_frequency (c2f : Nat → ℚ) (inp : TickInput) (s : State) : State × Bool :=
  let s := if s.ticks_since_last_freq_ > ERROR_TIMEOUT then { s with auto_error_ := true } else s
  if inp.available then
    let sum := s.auto_freq_sum_ + inp.reading
    let cnt := s.auto_freq_count_ + 1
    if s.ticks_since_last_freq_ > wait_window s.F_correction_factor_ then
      let f := c2f (sum / cnt)
      ({ s with auto_frequency_ := f
                history_ := history_push f s.history_
                auto_freq_sum_ := 0
                auto_ready_ := true
                auto_freq_count_ := 0
                ticks_since_last_freq_ := 0 }, true)
    else
      ({ s with auto_freq_sum_ := sum, auto_freq_count_ := cnt }, false)
  else (s, false)

/-- The per-emit convergence-controller update: the `else if (_update)` branch
of the voltage-step case of `measure_frequency_and_calc_error`
(`APP_REFS.ino` lines 391-422).  The state already holds the freshly emitted
frequency in `auto_frequency_`. -/
def calc_corrections (s : State) : State :=
  let s := { s with auto_num_passes_ := s.auto_num_passes_ + 1 }
  let t := s.auto_target_frequencies_ (fidx (s.autotuner_step_ - DAC_VOLT_3m))
  let s :=
    if t > s.auto_frequency_ then
      let F := if !s.correction_direction_
               then (s.F_correction_factor_ >>> 1) ||| 1
               else s.F_correction_factor_
      let s := { s with F_correction_factor_ := F
                        correction_direction_ := true
                        auto_DAC_offset_error_ := s.auto_DAC_offset_error_ + F }
      if F = 1 then { s with correction_cnt_positive_ := s.correction_cnt_positive_ + 1 } else s
    else if t < s.auto_frequency_ then
      let F := if s.correction_direction_
               then (s.F_correction_factor_ >>> 1) ||| 1
               else s.F_correction_factor_
      let s := { s with F_correction_factor_ := F
                        correction_direction_ := false
                        auto_DAC_offset_error_ := s.auto_DAC_offset_error_ - F }
      if F = 1 then { s with correction_cnt_negative_ := s.correction_cnt_negative_ + 1 } else s
    else s
  if s.correction_cnt_positive_ > CONVERGE_PASSES ∧ s.correction_cnt_negative_ > CONVERGE_PASSES
  then { s with auto_num_passes_ := MAX_NUM_PASSES <<< 1 }
  else s

/-- `ReferenceChannel::measure_frequency_and_calc_error`
(`APP_REFS.ino` lines 282-448).  `calibrated_octaves` models the factory table
`OC::calibration_data.dac.calibrated_octaves[dac_channel_]`;
`OC::DAC::update_auto_channel_calibration_data` and
`OC::DAC::set_auto_channel_calibration_data` act on the modelled driver fields
`dac_auto_table_` and `dac_live_auto_`. -/
def measure_frequency_and_calc_error (c2f : Nat → ℚ) (calibrated_octaves : Fin 11 → Int)
    (inp : TickInput) (s : State) : State :=
  if s.autotuner_step_ = DAC_VOLT_0_ARM then
    s
  else if s.autotuner_step_ = DAC_VOLT_0_BASELINE then
    let p := auto_frequency c2f inp s
    let s1 := p.1
    if p.2 ∧ s1.auto_num_passes_ > kHistoryDepth then
      let s2 := { s1 with auto_last_frequency_ := s1.auto_frequency_ }
      let average := s2.history_.sum
      let target_frequency := (s2.auto_frequency_ + average) / ((kHistoryDepth : ℚ) + 1)
      let s3 := { s2 with auto_target_frequencies_ :=
                            set_target_frequencies get_voltage_scaling target_frequency }
      let s4 := auto_reset_step s3
      { s4 with autotuner_step_ := s4.autotuner_step_ + 1 }
    else if p.2 then
      { s1 with auto_num_passes_ := s1.auto_num_passes_ + 1 }
    else s1
  else if s.autotuner_step_ ≤ DAC_VOLT_6 then
    let p := auto_frequency c2f inp s
    let s1 := p.1
    if p.2 ∧ s1.auto_num_passes_ > MAX_NUM_PASSES then
      let s2 := if DAC_VOLT_2m < s1.autotuner_step_ ∧
                   s1.auto_last_frequency_ * 1.25 > s1.auto_frequency_
                then { s1 with auto_error_ := true } else s1
      let average := s2.history_.sum
      let s3 := { s2 with auto_last_frequency_ :=
                            (s2.auto_frequency_ + average) / ((kHistoryDepth : ℚ) + 1) }
      let table := Function.update s3.auto_calibration_data_
                     (fidx (s3.autotuner_step_ - DAC_VOLT_3m))
                     (wrap16 s3.auto_DAC_offset_error_)
      let s4 := { s3 with auto_calibration_data_ := table }
      let s5 := auto_reset_step s4
      { s5 with autotuner_step_ := s5.autotuner_step_ + 1 }
    else if p.2 then
      calc_corrections s1
    else s1
  else if s.autotuner_step_ = AUTO_CALIBRATION_STEP_LAST then
    let s1 :=
      if s.ticks_since_last_freq_ > 2000 then
        let k := fidx s.octaves_cnt_.toNat
        let new_point := calibrated_octaves k + s.auto_calibration_data_ k
        { s with dac_out_ := new_point
                 dac_auto_table_ := Function.update s.dac_auto_table_ k new_point
                 ticks_since_last_freq_ := 0
                 octaves_cnt_ := s.octaves_cnt_ + 1 }
      else s
    if s1.octaves_cnt_ > (OCTAVES : Int) then
      { s1 with autotune_completed_ := true
                dac_live_auto_ := true
                autotuner_step_ := s1.autotuner_step_ + 1 }
    else s1
  else
    { s with autotuner_step_ := DAC_VOLT_0_ARM, autotuner_ := false }

/-- `ReferenceChannel::autotune_updateDAC` (`APP_REFS.ino` lines 450-476).
`OC::DAC::set` is modelled by recording the raw code in `dac_out_`. -/
def autotune_updateDAC (c2f : Nat → ℚ) (calibrated_octaves : Fin 11 → Int)
    (inp : TickInput) (s : State) : State :=
  if s.autotuner_step_ = DAC_VOLT_0_ARM then
    let s := { s with F_correction_factor_ := 1 }
    let s := (auto_frequency c2f inp s).1
    { s with dac_out_ := calibrated_octaves (fidx kOctaveZero) }
  else if s.autotuner_step_ = DAC_VOLT_0_BASELINE then
    { s with dac_out_ := calibrated_octaves (fidx kOctaveZero) }
  else if s.autotuner_step_ = AUTO_CALIBRATION_STEP_LAST then
    s
  else
    { s with dac_out_ := calibrated_octaves (fidx (s.autotuner_step_ - DAC_VOLT_3m)) +
                           s.auto_DAC_offset_error_ }

/-- `ReferenceChannel::Update` (`APP_REFS.ino` lines 486-511), autotuner branch.
When `autotuner_` is false the routine renders the normal pitch output through
external DAC calls and touches none of the autotuner fields, so the state is
returned unchanged. -/
def Update (c2f : Nat → ℚ) (calibrated_octaves : Fin 11 → Int)
    (inp : TickInput) (s : State) : State :=
  if s.autotuner_ then
    let s := autotune_updateDAC c2f calibrated_octaves inp s
    { s with ticks_since_last_freq_ := s.ticks_since_last_freq_ + 1 }
  else s

/-- The autotuner-field initial values of `ReferenceChannel::Init`
(`APP_REFS.ino` lines 93-118), with the modelled DAC-driver state starting on
the factory table. -/
def initState : State :=
  { autotuner_ := false
    autotuner_step_ := DAC_VOLT_0_ARM
    auto_DAC_offset_error_ := 0
    auto_frequency_ := 0
    auto_target_frequencies_ := fun _ => 0
    auto_calibration_data_ := fun _ => 0
    auto_last_frequency_ := 0
    auto_error_ := false
    auto_ready_ := false
    autotune_completed_ := false
    auto_freq_sum_ := 0
    auto_freq_count_ := 0
    ticks_since_last_freq_ := 0
    auto_num_passes_ := 0
    F_correction_factor_ := 0xFF
    correction_direction_ := false
    correction_cnt_positive_ := 0
    correction_cnt_negative_ := 0
    octaves_cnt_ := 0
    history_ := List.replicate kHistoryDepth 0
    dac_live_auto_ := false
    dac_auto_table_ := fun _ => 0
    dac_out_ := 0 }

/-- State of the convergence controller after `n` averager emits with
frequencies `f 0, …, f (n-1)`, inside a single voltage step: each emit stores
the new averaged frequency and runs the per-emit controller update of
`APP_REFS.ino` lines 391-422. -/
def convergeRun (f : Nat → ℚ) (s0 : State) : Nat → State
  | 0 => s0
  | n + 1 => calc_corrections { (convergeRun f s0 n) with auto_frequency_ := f n }

/-- The comparison of the emitted frequencies against the target `t`
alternates in sign on every emit (and is never an exact tie). -/
def Alternating (t : ℚ) (f : Nat → ℚ) : Prop :=
  ∀ i, f i ≠ t ∧ ((f (i + 1) < t) ↔ ¬(f i < t))

/-- Contribution of the stored correction direction once the halving factor
has floored at 1: the controller last moved by `+1` iff the direction flag is
set. -/
def bdir (d : Bool) : Int := if d then 1 else 0

/-- Invariant of the convergence controller under sign-alternating emits: the
halving factor walks down the chain 255, 127, …, 3, 1 and the signed offset is
bounded accordingly. -/
def ConvBound (s : State) : Prop :=
  (s.F_correction_factor_ = 255 ∧
     -261 ≤ s.auto_DAC_offset_error_ ∧ s.auto_DAC_offset_error_ ≤ 261) ∨
  (s.F_correction_factor_ = 127 ∧
     -388 ≤ s.auto_DAC_offset_error_ ∧ s.auto_DAC_offset_error_ ≤ 388) ∨
  (s.F_correction_factor_ = 63 ∧
     -451 ≤ s.auto_DAC_offset_error_ ∧ s.auto_DAC_offset_error_ ≤ 451) ∨
  (s.F_correction_factor_ = 31 ∧
     -482 ≤ s.auto_DAC_offset_error_ ∧ s.auto_DAC_offset_error_ ≤ 482) ∨
  (s.F_correction_factor_ = 15 ∧
     -497 ≤ s.auto_DAC_offset_error_ ∧ s.auto_DAC_offset_error_ ≤ 497) ∨
  (s.F_correction_factor_ = 7 ∧
     -504 ≤ s.auto_DAC_offset_error_ ∧ s.auto_DAC_offset_error_ ≤ 504) ∨
  (s.F_correction_factor_ = 3 ∧
     -507 ≤ s.auto_DAC_offset_error_ ∧ s.auto_DAC_offset_error_ ≤ 507) ∨
  (s.F_correction_factor_ = 1 ∧
     -508 ≤ s.auto_DAC_offset_error_ - bdir s.correction_direction_ ∧
     s.auto_DAC_offset_error_ - bdir s.correction_direction_ ≤ 508)

/-- Concrete voltage-step state used for concrete runs of the convergence
controller: step −3 V, every target 500 Hz, scratch freshly reset. -/
def sarTestState : State :=
  { initState with autotuner_ := true
                   autotuner_step_ := DAC_VOLT_3m
                   auto_target_frequencies_ := fun _ => 500 }

/-- Emitted frequencies alternating around the 500 Hz target. -/
def altFreqSeq : Nat → ℚ := fun i => if i % 2 = 0 then 250 else 1000

/-- Emitted frequencies constantly below the target. -/
def monotoneLowSeq : Nat → ℚ := fun _ => 1

/-- Modelled external conversion: a simple concrete stand-in for
`FreqMeasure.countToFrequency` used in concrete runs. -/
def idReadFreq : Nat → ℚ := fun n => n

/-- All-zero factory octave table used in concrete runs. -/
def zeroTable : Fin 11 → Int := fun _ => 0

/-- Concrete channel state advancing out of voltage step −1 V with a
doubling-check failure pending: the previously settled frequency (1000 Hz)
times 1.25 exceeds the incoming averaged frequency (100 Hz). -/
def cexDoublingAdvance : State :=
  { initState with autotuner_ := true
                   autotuner_step_ := DAC_VOLT_1m
                   auto_last_frequency_ := 1000
                   auto_DAC_offset_error_ := -7
                   auto_num_passes_ := 1501
                   ticks_since_last_freq_ := 129
                   auto_calibration_data_ := fun _ => 42 }

/-- Same pending advance, but out of voltage step −2 V. -/
def cexDoublingSkip : State := { cexDoublingAdvance with autotuner_step_ := DAC_VOLT_2m }

/-- Concrete baseline state seeing its 10th averager emit (the pass counter
holds the 9 previous emits). -/
def cexBaselineTenth : State :=
  { initState with autotuner_ := true
                   autotuner_step_ := DAC_VOLT_0_BASELINE
                   auto_num_passes_ := 9
                   ticks_since_last_freq_ := 129 }

/-- Concrete baseline state seeing its 12th averager emit. -/
def witBaselineSnap : State := { cexBaselineTenth with auto_num_passes_ := 11 }

/-- Concrete state in the table-commit state with all octave entries written. -/
def commitDoneState : State :=
  { initState with autotuner_ := true
                   autotuner_step_ := AUTO_CALIBRATION_STEP_LAST
                   octaves_cnt_ := 11 }

/-- Concrete armed channel still in the ARM state whose tick counter has
passed the no-signal timeout. -/
def armedTimeoutState : State :=
  { (autotuner_arm 1 initState) with ticks_since_last_freq_ := ERROR_TIMEOUT + 1 }

lemma calc_pos_proj (s : State)
    (h : s.auto_frequency_ < s.auto_target_frequencies_ (fidx (s.autotuner_step_ - DAC_VOLT_3m))) :
    ((calc_corrections s).F_correction_factor_ =
       if s.correction_direction_ then s.F_correction_factor_
       else (s.F_correction_factor_ >>> 1) ||| 1) ∧
    ((calc_corrections s).auto_DAC_offset_error_ =
       s.auto_DAC_offset_error_ +
         ((if s.correction_direction_ then s.F_correction_factor_
           else (s.F_correction_factor_ >>> 1) ||| 1 : Nat) : Int)) ∧
    (calc_corrections s).correction_direction_ = true ∧
    (calc_corrections s).auto_target_frequencies_ = s.auto_target_frequencies_ ∧
    (calc_corrections s).autotuner_step_ = s.autotuner_step_ := by
  simp only [calc_corrections]
  split_ifs <;> simp_all

lemma calc_neg_proj (s : State)
    (h : s.auto_target_frequencies_ (fidx (s.autotuner_step_ - DAC_VOLT_3m)) < s.auto_frequency_) :
    ((calc_corrections s).F_correction_factor_ =
       if s.correction_direction_ then (s.F_correction_factor_ >>> 1) ||| 1
       else s.F_correction_factor_) ∧
    ((calc_corrections s).auto_DAC_offset_error_ =
       s.auto_DAC_offset_error_ -
         ((if s.correction_direction_ then (s.F_correction_factor_ >>> 1) ||| 1
           else s.F_correction_factor_ : Nat) : Int)) ∧
    (calc_corrections s).correction_direction_ = false ∧
    (calc_corrections s).auto_target_frequencies_ = s.auto_target_frequencies_ ∧
    (calc_corrections s).autotuner_step_ = s.autotuner_step_ := by
  simp only [calc_corrections]
  split_ifs <;> first
    | (exfalso; linarith)
    | simp_all

lemma bdir_le (d : Bool) : 0 ≤ bdir d ∧ bdir d ≤ 1 := by cases d <;> simp [bdir]

lemma alt_dir_flip (t : ℚ) (f : Nat → ℚ) (halt : Alternating t f) (n : Nat) :
    decide (f n < t) = !decide (f (n + 1) < t) := by
  have h := (halt n).2
  by_cases hc : f (n + 1) < t
  · simp [hc, h.mp hc]
  · have hfn : f n < t := not_not.mp (fun hnn => hc (h.mpr hnn))
    simp [hc, hfn]

lemma converge_step (t : ℚ) (s : State)
    (hx : s.auto_frequency_ ≠ t)
    (htgt : s.auto_target_frequencies_ (fidx (s.autotuner_step_ - DAC_VOLT_3m)) = t)
    (hdir : s.correction_direction_ = !(decide (s.auto_frequency_ < t)))
    (hb : ConvBound s) :
    ConvBound (calc_corrections s) ∧
    (calc_corrections s).correction_direction_ = decide (s.auto_frequency_ < t) ∧
    (calc_corrections s).auto_target_frequencies_ = s.auto_target_frequencies_ ∧
    (calc_corrections s).autotuner_step_ = s.autotuner_step_ ∧
    (calc_corrections s).F_correction_factor_ = (s.F_correction_factor_ >>> 1) ||| 1 := by
  rcases lt_or_gt_of_ne hx with hlt | hgt
  · -- frequency below target : positive correction, direction flag was false
    have hd : s.correction_direction_ = false := by simp [hdir, hlt]
    obtain ⟨hFe, hOe, hDe, hTe, hSe⟩ := calc_pos_proj s (htgt ▸ hlt)
    rw [hd] at hFe hOe
    simp only [Bool.false_eq_true, if_false] at hFe hOe
    refine ⟨?_, by simp [hDe, hlt], hTe, hSe, hFe⟩
    rcases hb with ⟨hFv, hlo, hhi⟩ | ⟨hFv, hlo, hhi⟩ | ⟨hFv, hlo, hhi⟩ | ⟨hFv, hlo, hhi⟩ |
      ⟨hFv, hlo, hhi⟩ | ⟨hFv, hlo, hhi⟩ | ⟨hFv, hlo, hhi⟩ | ⟨hFv, hlo, hhi⟩ <;>
      rw [hFv] at hFe hOe <;>
      simp only [ConvBound, hFe, hOe, hDe,
        show ((255:Nat) >>> 1) ||| 1 = 127 from by decide,
        show ((127:Nat) >>> 1) ||| 1 = 63 from by decide,
        show ((63:Nat) >>> 1) ||| 1 = 31 from by decide,
        show ((31:Nat) >>> 1) ||| 1 = 15 from by decide,
        show ((15:Nat) >>> 1) ||| 1 = 7 from by decide,
        show ((7:Nat) >>> 1) ||| 1 = 3 from by decide,
        show ((3:Nat) >>> 1) ||| 1 = 1 from by decide,
        show ((1:Nat) >>> 1) ||| 1 = 1 from by decide, bdir] <;>
      norm_num <;>
      (first
        | omega
        | (simp only [hd, show bdir true = 1 from rfl, show bdir false = 0 from rfl]
             at hlo hhi; omega))
  · -- frequency above target : negative correction, direction flag was true
    have hxt : ¬ (s.auto_frequency_ < t) := not_lt.mpr (le_of_lt hgt)
    have hd : s.correction_direction_ = true := by simp [hdir, hxt]
    obtain ⟨hFe, hOe, hDe, hTe, hSe⟩ := calc_neg_proj s (htgt ▸ hgt)
    rw [hd] at hFe hOe
    simp only [if_true] at hFe hOe
    refine ⟨?_, by simp [hDe, hxt], hTe, hSe, hFe⟩
    rcases hb with ⟨hFv, hlo, hhi⟩ | ⟨hFv, hlo, hhi⟩ | ⟨hFv, hlo, hhi⟩ | ⟨hFv, hlo, hhi⟩ |
      ⟨hFv, hlo, hhi⟩ | ⟨hFv, hlo, hhi⟩ | ⟨hFv, hlo, hhi⟩ | ⟨hFv, hlo, hhi⟩ <;>
      rw [hFv] at hFe hOe <;>
      simp only [ConvBound, hFe, hOe, hDe,
        show ((255:Nat) >>> 1) ||| 1 = 127 from by decide,
        show ((127:Nat) >>> 1) ||| 1 = 63 from by decide,
        show ((63:Nat) >>> 1) ||| 1 = 31 from by decide,
        show ((31:Nat) >>> 1) ||| 1 = 15 from by decide,
        show ((15:Nat) >>> 1) ||| 1 = 7 from by decide,
        show ((7:Nat) >>> 1) ||| 1 = 3 from by decide,
        show ((3:Nat) >>> 1) ||| 1 = 1 from by decide,
        show ((1:Nat) >>> 1) ||| 1 = 1 from by decide, bdir] <;>
      norm_num <;>
      (first
        | omega
        | (simp only [hd, show bdir true = 1 from rfl, show bdir false = 0 from rfl]
             at hlo hhi; omega))

lemma converge_first (t : ℚ) (s : State)
    (hx : s.auto_frequency_ ≠ t)
    (htgt : s.auto_target_frequencies_ (fidx (s.autotuner_step_ - DAC_VOLT_3m)) = t)
    (h0 : s.auto_DAC_offset_error_ = 0) (hF : s.F_correction_factor_ = 255)
    (hd : s.correction_direction_ = false) :
    ConvBound (calc_corrections s) ∧
    (calc_corrections s).correction_direction_ = decide (s.auto_frequency_ < t) ∧
    (calc_corrections s).auto_target_frequencies_ = s.auto_target_frequencies_ ∧
    (calc_corrections s).autotuner_step_ = s.autotuner_step_ := by
  rcases lt_or_gt_of_ne hx with hlt | hgt
  · obtain ⟨hFe, hOe, hDe, hTe, hSe⟩ := calc_pos_proj s (htgt ▸ hlt)
    rw [hd] at hFe hOe
    simp only [Bool.false_eq_true, if_false] at hFe hOe
    rw [hF] at hFe hOe
    refine ⟨?_, by simp [hDe, hlt], hTe, hSe⟩
    simp only [ConvBound, hFe, hOe, hDe, h0,
      show ((255:Nat) >>> 1) ||| 1 = 127 from by decide]
    norm_num
  · have hxt : ¬ (s.auto_frequency_ < t) := not_lt.mpr (le_of_lt hgt)
    obtain ⟨hFe, hOe, hDe, hTe, hSe⟩ := calc_neg_proj s (htgt ▸ hgt)
    rw [hd] at hFe hOe
    simp only [Bool.false_eq_true, if_false] at hFe hOe
    rw [hF] at hFe hOe
    refine ⟨?_, by simp [hDe, hxt], hTe, hSe⟩
    simp only [ConvBound, hFe, hOe, hDe, h0]
    norm_num

lemma converge_inv (t : ℚ) (f : Nat → ℚ) (s0 : State)
    (halt : Alternating t f)
    (htgt : s0.auto_target_frequencies_ (fidx (s0.autotuner_step_ - DAC_VOLT_3m)) = t)
    (h0 : s0.auto_DAC_offset_error_ = 0) (hF : s0.F_correction_factor_ = 255)
    (hd : s0.correction_direction_ = false) (n : Nat) :
    ConvBound (convergeRun f s0 (n + 1)) ∧
    (convergeRun f s0 (n + 1)).correction_direction_ = decide (f n < t) ∧
    (convergeRun f s0 (n + 1)).auto_target_frequencies_ = s0.auto_target_frequencies_ ∧
    (convergeRun f s0 (n + 1)).autotuner_step_ = s0.autotuner_step_ := by
  induction n with
  | zero =>
    have h := converge_first t { s0 with auto_frequency_ := f 0 } ((halt 0).1) htgt h0 hF hd
    simpa [convergeRun] using h
  | succ m ih =>
    obtain ⟨hb, hdir, htargets, hstep⟩ := ih
    have hx : ({ convergeRun f s0 (m + 1) with auto_frequency_ := f (m + 1) } :
        State).auto_frequency_ ≠ t := (halt (m + 1)).1
    have htg : ({ convergeRun f s0 (m + 1) with auto_frequency_ := f (m + 1) } :
        State).auto_target_frequencies_
          (fidx (({ convergeRun f s0 (m + 1) with auto_frequency_ := f (m + 1) } :
            State).autotuner_step_ - DAC_VOLT_3m)) = t := by
      show (convergeRun f s0 (m + 1)).auto_target_frequencies_
            (fidx ((convergeRun f s0 (m + 1)).autotuner_step_ - DAC_VOLT_3m)) = t
      rw [htargets, hstep]
      exact htgt
    have hdir' : ({ convergeRun f s0 (m + 1) with auto_frequency_ := f (m + 1) } :
        State).correction_direction_ = !(decide (({ convergeRun f s0 (m + 1) with
          auto_frequency_ := f (m + 1) } : State).auto_frequency_ < t)) := by
      show (convergeRun f s0 (m + 1)).correction_direction_ = !(decide (f (m + 1) < t))
      rw [hdir, alt_dir_flip t f halt m]
    have hb' : ConvBound ({ convergeRun f s0 (m + 1) with auto_frequency_ := f (m + 1) } :
        State) := hb
    obtain ⟨c1, c2, c3, c4, _⟩ := converge_step t _ hx htg hdir' hb'
    refine ⟨c1, by simpa using c2, ?_, ?_⟩
    · rw [show (convergeRun f s0 (m + 1 + 1)).auto_target_frequencies_ =
          (calc_corrections { convergeRun f s0 (m + 1) with
            auto_frequency_ := f (m + 1) }).auto_target_frequencies_ from rfl, c3]
      exact htargets
    · rw [show (convergeRun f s0 (m + 1 + 1)).autotuner_step_ =
          (calc_corrections { convergeRun f s0 (m + 1) with
            auto_frequency_ := f (m + 1) }).autotuner_step_ from rfl, c4]
      exact hstep

lemma converge_halves (t : ℚ) (f : Nat → ℚ) (s0 : State)
    (halt : Alternating t f)
    (htgt : s0.auto_target_frequencies_ (fidx (s0.autotuner_step_ - DAC_VOLT_3m)) = t)
    (h0 : s0.auto_DAC_offset_error_ = 0) (hF : s0.F_correction_factor_ = 255)
    (hd : s0.correction_direction_ = false) (n : Nat) :
    (convergeRun f s0 (n + 2)).F_correction_factor_ =
      ((convergeRun f s0 (n + 1)).F_correction_factor_ >>> 1) ||| 1 := by
  obtain ⟨hb, hdir, htargets, hstep⟩ := converge_inv t f s0 halt htgt h0 hF hd n
  have hx : ({ convergeRun f s0 (n + 1) with auto_frequency_ := f (n + 1) } :
      State).auto_frequency_ ≠ t := (halt (n + 1)).1
  have htg : ({ convergeRun f s0 (n + 1) with auto_frequency_ := f (n + 1) } :
      State).auto_target_frequencies_
        (fidx (({ convergeRun f s0 (n + 1) with auto_frequency_ := f (n + 1) } :
          State).autotuner_step_ - DAC_VOLT_3m)) = t := by
    show (convergeRun f s0 (n + 1)).auto_target_frequencies_
          (fidx ((convergeRun f s0 (n + 1)).autotuner_step_ - DAC_VOLT_3m)) = t
    rw [htargets, hstep]
    exact htgt
  have hdir' : ({ convergeRun f s0 (n + 1) with auto_frequency_ := f (n + 1) } :
      State).correction_direction_ = !(decide (({ convergeRun f s0 (n + 1) with
        auto_frequency_ := f (n + 1) } : State).auto_frequency_ < t)) := by
    show (convergeRun f s0 (n + 1)).correction_direction_ = !(decide (f (n + 1) < t))
    rw [hdir, alt_dir_flip t f halt n]
  have hb' : ConvBound ({ convergeRun f s0 (n + 1) with auto_frequency_ := f (n + 1) } :
      State) := hb
  obtain ⟨_, _, _, _, c5⟩ := converge_step t _ hx htg hdir' hb'
  exact c5

lemma altFreqSeq_alternating : Alternating 500 altFreqSeq := by
  intro i
  by_cases h : i % 2 = 0
  · have h1 : (i + 1) % 2 = 1 := by omega
    refine ⟨by norm_num [altFreqSeq, h], by norm_num [altFreqSeq, h, h1]⟩
  · have h1 : (i + 1) % 2 = 0 := by omega
    refine ⟨by norm_num [altFreqSeq, h], by norm_num [altFreqSeq, h, h1]⟩

/-- C1 counterexample: within a single convergence step, five consecutive emits below the target drive `auto_DAC_offset_error_` to 635, so the claimed bound of 509 fails for non-alternating emit sequences (the halving factor only halves on a sign change). -/
theorem offset_error_exceeds_509_on_monotone_emits :
    (convergeRun monotoneLowSeq sarTestState 5).auto_DAC_offset_error_ = 635 ∧
    ¬((convergeRun monotoneLowSeq sarTestState 5).auto_DAC_offset_error_ ≤ 509) := by
  decide

/-- C1 (amended): during a single convergence step, for every emit sequence whose comparison against the step target alternates in sign on every emit, the signed DAC correction `auto_DAC_offset_error_` stays within ±(2·0xFF − 1) = ±509. -/
theorem offset_error_bounded_on_alternating_emits
    (t : ℚ) (f : Nat → ℚ) (s0 : State) (halt : Alternating t f)
    (htgt : s0.auto_target_frequencies_ (fidx (s0.autotuner_step_ - DAC_VOLT_3m)) = t)
    (h0 : s0.auto_DAC_offset_error_ = 0) (hF : s0.F_correction_factor_ = 255)
    (hd : s0.correction_direction_ = false) (n : Nat) :
    -509 ≤ (convergeRun f s0 n).auto_DAC_offset_error_ ∧
    (convergeRun f s0 n).auto_DAC_offset_error_ ≤ 509 := by
  cases n with
  | zero => norm_num [convergeRun, h0]
  | succ m =>
    obtain ⟨hb, _, _, _⟩ := converge_inv t f s0 halt htgt h0 hF hd m
    obtain ⟨hb0, hb1⟩ := bdir_le (convergeRun f s0 (m + 1)).correction_direction_
    rcases hb with ⟨_, hlo, hhi⟩ | ⟨_, hlo, hhi⟩ | ⟨_, hlo, hhi⟩ | ⟨_, hlo, hhi⟩ |
      ⟨_, hlo, hhi⟩ | ⟨_, hlo, hhi⟩ | ⟨_, hlo, hhi⟩ | ⟨_, hlo, hhi⟩ <;> omega

/-- Witness: the C1 bound instantiated on a concrete alternating run of 20 emits around a 500 Hz target. -/
theorem offset_error_bounded_on_alternating_emits_witness :
    Alternating 500 altFreqSeq ∧
    (-509 ≤ (convergeRun altFreqSeq sarTestState 20).auto_DAC_offset_error_ ∧
      (convergeRun altFreqSeq sarTestState 20).auto_DAC_offset_error_ ≤ 509) :=
  ⟨altFreqSeq_alternating,
   offset_error_bounded_on_alternating_emits 500 altFreqSeq sarTestState
     altFreqSeq_alternating rfl rfl rfl rfl 20⟩

/-- C8: for any sequence of convergence-controller observations whose comparison against the target alternates in sign on every emit, the halving factor starts at 0xFF and the sequence of F values after each emit is strictly decreasing until it reaches 1 and stays constant at 1 afterwards. -/
theorem F_factor_strictly_decreasing_until_one
    (t : ℚ) (f : Nat → ℚ) (s0 : State) (halt : Alternating t f)
    (htgt : s0.auto_target_frequencies_ (fidx (s0.autotuner_step_ - DAC_VOLT_3m)) = t)
    (h0 : s0.auto_DAC_offset_error_ = 0) (hF : s0.F_correction_factor_ = 255)
    (hd : s0.correction_direction_ = false) (n : Nat) :
    (convergeRun f s0 0).F_correction_factor_ = 0xFF ∧
    ((convergeRun f s0 (n + 1)).F_correction_factor_ = 1 →
       (convergeRun f s0 (n + 2)).F_correction_factor_ = 1) ∧
    ((convergeRun f s0 (n + 1)).F_correction_factor_ ≠ 1 →
       (convergeRun f s0 (n + 2)).F_correction_factor_ <
         (convergeRun f s0 (n + 1)).F_correction_factor_) := by
  have hh := converge_halves t f s0 halt htgt h0 hF hd n
  obtain ⟨hb, _, _, _⟩ := converge_inv t f s0 halt htgt h0 hF hd n
  refine ⟨by simpa [convergeRun] using hF, ?_, ?_⟩
  · intro h1
    rw [h1] at hh
    simpa using hh
  · intro hne
    rcases hb with ⟨hFv, _, _⟩ | ⟨hFv, _, _⟩ | ⟨hFv, _, _⟩ | ⟨hFv, _, _⟩ |
      ⟨hFv, _, _⟩ | ⟨hFv, _, _⟩ | ⟨hFv, _, _⟩ | ⟨hFv, _, _⟩ <;>
      first
        | exact absurd hFv hne
        | (rw [hFv] at hh; rw [hh, hFv]; decide)

/-- Witness: the C8 law instantiated on a concrete alternating run. -/
theorem F_factor_strictly_decreasing_until_one_witness :
    Alternating 500 altFreqSeq ∧
    ((convergeRun altFreqSeq sarTestState 0).F_correction_factor_ = 0xFF ∧
     ((convergeRun altFreqSeq sarTestState 2).F_correction_factor_ = 1 →
        (convergeRun altFreqSeq sarTestState 3).F_correction_factor_ = 1) ∧
     ((convergeRun altFreqSeq sarTestState 2).F_correction_factor_ ≠ 1 →
        (convergeRun altFreqSeq sarTestState 3).F_correction_factor_ <
          (convergeRun altFreqSeq sarTestState 2).F_correction_factor_)) :=
  ⟨altFreqSeq_alternating,
   F_factor_strictly_decreasing_until_one 500 altFreqSeq sarTestState
     altFreqSeq_alternating rfl rfl rfl rfl 1⟩

lemma auto_frequency_emit (c2f : Nat → ℚ) (inp : TickInput) (s : State)
    (hav : inp.available = true)
    (hticks : wait_window s.F_correction_factor_ < s.ticks_since_last_freq_) :
    auto_frequency c2f inp s =
      ({ s with
          auto_frequency_ :=
            c2f ((s.auto_freq_sum_ + inp.reading) / (s.auto_freq_count_ + 1))
          history_ := history_push
            (c2f ((s.auto_freq_sum_ + inp.reading) / (s.auto_freq_count_ + 1))) s.history_
          auto_freq_sum_ := 0
          auto_ready_ := true
          auto_freq_count_ := 0
          ticks_since_last_freq_ := 0
          auto_error_ :=
            if ERROR_TIMEOUT < s.ticks_since_last_freq_ then true else s.auto_error_ },
       true) := by
  by_cases he : ERROR_TIMEOUT < s.ticks_since_last_freq_ <;>
    simp [auto_frequency, he, hav, hticks]

lemma calc_corrections_targets (s : State) :
    (calc_corrections s).auto_target_frequencies_ = s.auto_target_frequencies_ := by
  simp only [calc_corrections]
  split_ifs <;> rfl

lemma auto_frequency_targets (c2f : Nat → ℚ) (inp : TickInput) (s : State) :
    (auto_frequency c2f inp s).1.auto_target_frequencies_ = s.auto_target_frequencies_ := by
  simp only [auto_frequency]
  split_ifs <;> rfl

/-- C2 (amended): when the doubling check fails on advancing out of a voltage step beyond `DAC_VOLT_2m`, the channel latches `auto_error_ = true` but does not freeze: this routine still stores the step's correction entry and advances to the next step. -/
theorem doubling_check_failure_latches_error_stores_and_advances
    (c2f : Nat → ℚ) (co : Fin 11 → Int) (inp : TickInput) (s : State)
    (hstep1 : DAC_VOLT_2m < s.autotuner_step_) (hstep2 : s.autotuner_step_ ≤ DAC_VOLT_6)
    (hav : inp.available = true)
    (hticks : wait_window s.F_correction_factor_ < s.ticks_since_last_freq_)
    (hpass : MAX_NUM_PASSES < s.auto_num_passes_)
    (hdbl : s.auto_last_frequency_ * 1.25 >
              c2f ((s.auto_freq_sum_ + inp.reading) / (s.auto_freq_count_ + 1))) :
    (measure_frequency_and_calc_error c2f co inp s).auto_error_ = true ∧
    (measure_frequency_and_calc_error c2f co inp s).autotuner_step_ =
      s.autotuner_step_ + 1 ∧
    (measure_frequency_and_calc_error c2f co inp s).auto_calibration_data_
        (fidx (s.autotuner_step_ - DAC_VOLT_3m)) = wrap16 s.auto_DAC_offset_error_ := by
  have hstep1' : (3 : Nat) < s.autotuner_step_ := hstep1
  have hs0 : ¬(s.autotuner_step_ = DAC_VOLT_0_ARM) := by
    show ¬(s.autotuner_step_ = 0); omega
  have hs1 : ¬(s.autotuner_step_ = DAC_VOLT_0_BASELINE) := by
    show ¬(s.autotuner_step_ = 1); omega
  simp only [measure_frequency_and_calc_error]
  rw [if_neg hs0, if_neg hs1, if_pos hstep2]
  rw [auto_frequency_emit c2f inp s hav hticks]
  simp only [gt_iff_lt]
  rw [if_pos ⟨by trivial, hpass⟩, if_pos ⟨hstep1, hdbl⟩]
  refine ⟨rfl, rfl, ?_⟩
  simp [auto_reset_step, Function.update_same]

/-- C3 (amended): on an advancing emit out of a voltage step, the resulting error flag equals the old flag OR-ed with (step strictly beyond `DAC_VOLT_2m` AND `last_frequency · 1.25 > frequency`): the doubling check is evaluated exactly when leaving −1 V … +6 V, never when leaving −3 V or −2 V. -/
theorem doubling_check_guard_characterization
    (c2f : Nat → ℚ) (co : Fin 11 → Int) (inp : TickInput) (s : State)
    (hstep1 : DAC_VOLT_3m ≤ s.autotuner_step_) (hstep2 : s.autotuner_step_ ≤ DAC_VOLT_6)
    (hav : inp.available = true)
    (hticks : wait_window s.F_correction_factor_ < s.ticks_since_last_freq_)
    (hpass : MAX_NUM_PASSES < s.auto_num_passes_)
    (hnoto : s.ticks_since_last_freq_ ≤ ERROR_TIMEOUT) :
    (measure_frequency_and_calc_error c2f co inp s).auto_error_ =
      (s.auto_error_ ||
        (decide (DAC_VOLT_2m < s.autotuner_step_) &&
         decide (s.auto_last_frequency_ * 1.25 >
           c2f ((s.auto_freq_sum_ + inp.reading) / (s.auto_freq_count_ + 1))))) := by
  have hstep1' : (2 : Nat) ≤ s.autotuner_step_ := hstep1
  have hs0 : ¬(s.autotuner_step_ = DAC_VOLT_0_ARM) := by
    show ¬(s.autotuner_step_ = 0); omega
  have hs1 : ¬(s.autotuner_step_ = DAC_VOLT_0_BASELINE) := by
    show ¬(s.autotuner_step_ = 1); omega
  have hnoto' : ¬(ERROR_TIMEOUT < s.ticks_since_last_freq_) := not_lt.mpr hnoto
  simp only [measure_frequency_and_calc_error]
  rw [if_neg hs0, if_neg hs1, if_pos hstep2]
  rw [auto_frequency_emit c2f inp s hav hticks]
  simp only [gt_iff_lt]
  rw [if_pos ⟨by trivial, hpass⟩]
  rw [if_neg hnoto']
  by_cases h1 : DAC_VOLT_2m < s.autotuner_step_
  · by_cases h2 : c2f ((s.auto_freq_sum_ + inp.reading) / (s.auto_freq_count_ + 1)) <
        s.auto_last_frequency_ * 1.25
    · rw [if_pos ⟨h1, h2⟩]
      simp [auto_reset_step, h1, h2]
    · rw [if_neg (by intro hc; exact h2 hc.2)]
      simp [auto_reset_step, h1, h2]
  · rw [if_neg (by intro hc; exact h1 hc.1)]
    simp [auto_reset_step, h1]

/-- C5 (amended): in BASELINE an emit snapshots and advances exactly when the pass counter (which counts the previous emits) exceeds `kHistoryDepth` — that is, on the 12th emit: then `auto_last_frequency_` is set to the emitted frequency, the target table is built from f0 = (emit + scrolling-history sum)/11, and the step advances to `DAC_VOLT_3m`; any earlier emit only increments the pass counter and leaves the table and step unchanged. -/
theorem baseline_snapshot_characterization
    (c2f : Nat → ℚ) (co : Fin 11 → Int) (inp : TickInput) (s : State)
    (hstep : s.autotuner_step_ = DAC_VOLT_0_BASELINE)
    (hav : inp.available = true)
    (hticks : wait_window s.F_correction_factor_ < s.ticks_since_last_freq_) :
    (kHistoryDepth < s.auto_num_passes_ →
       (measure_frequency_and_calc_error c2f co inp s).autotuner_step_ = DAC_VOLT_3m ∧
       (measure_frequency_and_calc_error c2f co inp s).auto_last_frequency_ =
         c2f ((s.auto_freq_sum_ + inp.reading) / (s.auto_freq_count_ + 1)) ∧
       (measure_frequency_and_calc_error c2f co inp s).auto_target_frequencies_ =
         set_target_frequencies get_voltage_scaling
           ((c2f ((s.auto_freq_sum_ + inp.reading) / (s.auto_freq_count_ + 1)) +
             (history_push (c2f ((s.auto_freq_sum_ + inp.reading) / (s.auto_freq_count_ + 1)))
               s.history_).sum) / ((kHistoryDepth : ℚ) + 1)) ∧
       (measure_frequency_and_calc_error c2f co inp s).auto_num_passes_ = 0) ∧
    (s.auto_num_passes_ ≤ kHistoryDepth →
       (measure_frequency_and_calc_error c2f co inp s).autotuner_step_ =
         DAC_VOLT_0_BASELINE ∧
       (measure_frequency_and_calc_error c2f co inp s).auto_num_passes_ =
         s.auto_num_passes_ + 1 ∧
       (measure_frequency_and_calc_error c2f co inp s).auto_target_frequencies_ =
         s.auto_target_frequencies_) := by
  have hs0 : ¬(s.autotuner_step_ = DAC_VOLT_0_ARM) := by
    rw [hstep]; decide
  simp only [measure_frequency_and_calc_error]
  rw [if_neg hs0, if_pos hstep]
  rw [auto_frequency_emit c2f inp s hav hticks]
  constructor
  · intro hgt
    rw [if_pos ⟨by trivial, hgt⟩]
    refine ⟨?_, rfl, rfl, rfl⟩
    show s.autotuner_step_ + 1 = DAC_VOLT_3m
    rw [hstep]
    rfl
  · intro hle
    rw [if_neg (fun hc => absurd hc.2 (not_lt.mpr hle)), if_pos (by trivial)]
    refine ⟨?_, rfl, rfl⟩
    show s.autotuner_step_ = DAC_VOLT_0_BASELINE
    exact hstep

/-- C7: whenever a call in the table-commit state enters DONE (the step moves past `AUTO_CALIBRATION_STEP_LAST`, which happens exactly when the octave counter has passed OCTAVES), the completed flag is raised and the DAC driver's live calibration table for the channel has been switched to the learned (Auto) variant. -/
theorem done_entry_selects_auto_calibration
    (c2f : Nat → ℚ) (co : Fin 11 → Int) (inp : TickInput) (s : State)
    (hstep : s.autotuner_step_ = AUTO_CALIBRATION_STEP_LAST)
    (hdone : (measure_frequency_and_calc_error c2f co inp s).autotuner_step_ =
               AUTO_CALIBRATION_STEP_LAST + 1) :
    (measure_frequency_and_calc_error c2f co inp s).autotune_completed_ = true ∧
    (measure_frequency_and_calc_error c2f co inp s).dac_live_auto_ = true := by
  have h12 : s.autotuner_step_ = 12 := hstep
  simp only [measure_frequency_and_calc_error, h12] at hdone ⊢
  norm_num [DAC_VOLT_0_ARM, DAC_VOLT_0_BASELINE, DAC_VOLT_6, AUTO_CALIBRATION_STEP_LAST]
    at hdone ⊢
  split_ifs at hdone ⊢
  case _ => exact ⟨rfl, rfl⟩
  case _ => norm_num at hdone
  case _ => exact ⟨rfl, rfl⟩
  case _ => exact absurd (h12.symm.trans hdone) (by decide)

/-- C10: the NoSignal error can latch while the channel is still armed in the ARM state, before any RUN command: `auto_frequency()` runs on every tick during ARM and sets the error flag whenever `ticks_since_last_freq_` exceeds ERROR_TIMEOUT, while the step remains ARM. -/
theorem no_signal_error_latches_in_arm
    (c2f : Nat → ℚ) (co : Fin 11 → Int) (inp : TickInput) (s : State)
    (harm : s.autotuner_ = true) (hstep : s.autotuner_step_ = DAC_VOLT_0_ARM)
    (ht : ERROR_TIMEOUT < s.ticks_since_last_freq_) :
    (Update c2f co inp s).auto_error_ = true ∧
    (Update c2f co inp s).autotuner_step_ = DAC_VOLT_0_ARM := by
  simp only [Update, autotune_updateDAC, auto_frequency, harm, hstep, if_true, if_pos rfl]
  simp only [gt_iff_lt]
  rw [if_pos (show ERROR_TIMEOUT <
    ({ s with F_correction_factor_ := 1 } : State).ticks_since_last_freq_ from ht)]
  split_ifs <;> simp

/-- C6: after `reset_autotuner`, all 11 correction-table entries are zero, both frequency fields (current measured and last settled) are zero, and the state is `DAC_VOLT_0_ARM`. -/
theorem reset_autotuner_clears_state (s : State) :
    (∀ k, (reset_autotuner s).auto_calibration_data_ k = 0) ∧
    (reset_autotuner s).auto_frequency_ = 0 ∧
    (reset_autotuner s).auto_last_frequency_ = 0 ∧
    (reset_autotuner s).autotuner_step_ = DAC_VOLT_0_ARM := by
  simp [reset_autotuner, reset_calibration_data, DAC_VOLT_0_ARM]

/-- C4: the target-table builder, given a baseline frequency of 100 Hz and the 1 V/octave scaling, produces exactly the 11 targets [12.5, 25, 50, 100, 200, 400, 800, 1600, 3200, 6400, 12800]. -/
theorem target_table_1V_from_100Hz :
    List.ofFn (set_target_frequencies 0 100) =
      [12.5, 25, 50, 100, 200, 400, 800, 1600, 3200, 6400, 12800] := by
  simp [List.ofFn_succ, set_target_frequencies, vco_mult_1V,
    Matrix.cons_val_zero, Matrix.cons_val_succ]
  norm_num

/-- C9: in this build configuration (`BUCHLA_SUPPORT` not defined) `get_voltage_scaling` is 0, so every call of the measurement routine either leaves the target table unchanged or fills it through the 1 V/octave multipliers; the 1.2 V/octave and 2 V/octave tables are unreachable. -/
theorem voltage_scaling_always_1V_branch
    (c2f : Nat → ℚ) (co : Fin 11 → Int) (inp : TickInput) (s : State) :
    get_voltage_scaling = 0 ∧
    ((measure_frequency_and_calc_error c2f co inp s).auto_target_frequencies_ =
        s.auto_target_frequencies_ ∨
     ∃ tf, (measure_frequency_and_calc_error c2f co inp s).auto_target_frequencies_ =
        fun k => tf * vco_mult_1V k) := by
  refine ⟨rfl, ?_⟩
  simp only [measure_frequency_and_calc_error]
  split_ifs <;>
    first
      | exact Or.inl rfl
      | exact Or.inl (auto_frequency_targets c2f inp s)
      | exact Or.inl ((calc_corrections_targets _).trans (auto_frequency_targets c2f inp s))
      | exact Or.inr ⟨_, rfl⟩

lemma error_timeout_val : ERROR_TIMEOUT = 8192 := by decide

lemma wait_window_val_255 : wait_window 255 = 128 := by decide

lemma freq_measure_timeout_shr2 : FREQ_MEASURE_TIMEOUT >>> 2 = 128 := by decide

lemma freq_measure_timeout_shl2 : FREQ_MEASURE_TIMEOUT <<< 2 = 2048 := by decide

/-- C2 counterexample: a doubling-check failure while advancing out of voltage step −1 V latches the error flag, yet the channel still stores the correction entry (−7 overwriting 42) and advances to the next step, contradicting the claimed freeze. -/
theorem doubling_check_failure_still_advances :
    (measure_frequency_and_calc_error idReadFreq zeroTable ⟨true, 100⟩
        cexDoublingAdvance).auto_error_ = true ∧
    (measure_frequency_and_calc_error idReadFreq zeroTable ⟨true, 100⟩
        cexDoublingAdvance).autotuner_step_ = DAC_VOLT_1m + 1 ∧
    (measure_frequency_and_calc_error idReadFreq zeroTable ⟨true, 100⟩
        cexDoublingAdvance).auto_calibration_data_ (fidx (DAC_VOLT_1m - DAC_VOLT_3m)) =
      -7 := by
  norm_num [measure_frequency_and_calc_error, auto_frequency, cexDoublingAdvance, initState,
    idReadFreq, zeroTable, auto_reset_step, wait_window, history_push, wrap16,
    DAC_VOLT_1m, DAC_VOLT_3m, DAC_VOLT_2m, DAC_VOLT_0_ARM, DAC_VOLT_0_BASELINE, DAC_VOLT_6,
    error_timeout_val, wait_window_val_255, freq_measure_timeout_shr2,
    freq_measure_timeout_shl2, MAX_NUM_PASSES, kHistoryDepth, fidx,
    Function.update]

/-- C3 counterexample: advancing out of voltage step `DAC_VOLT_2m` (−2 V) with `last_frequency · 1.25 > frequency` leaves the error flag clear — the doubling check is not evaluated there, though the claim says it is evaluated for every advancement out of V_m2 … V_p6. -/
theorem doubling_check_skipped_leaving_volt_2m :
    cexDoublingSkip.auto_last_frequency_ * 1.25 > idReadFreq ((cexDoublingSkip.auto_freq_sum_ +
      (100 : Nat)) / (cexDoublingSkip.auto_freq_count_ + 1)) ∧
    (measure_frequency_and_calc_error idReadFreq zeroTable ⟨true, 100⟩
        cexDoublingSkip).auto_error_ = false ∧
    (measure_frequency_and_calc_error idReadFreq zeroTable ⟨true, 100⟩
        cexDoublingSkip).autotuner_step_ = DAC_VOLT_2m + 1 := by
  norm_num [measure_frequency_and_calc_error, auto_frequency, cexDoublingSkip,
    cexDoublingAdvance, initState,
    idReadFreq, zeroTable, auto_reset_step, wait_window, history_push, wrap16,
    DAC_VOLT_1m, DAC_VOLT_3m, DAC_VOLT_2m, DAC_VOLT_0_ARM, DAC_VOLT_0_BASELINE, DAC_VOLT_6,
    error_timeout_val, wait_window_val_255, freq_measure_timeout_shr2,
    freq_measure_timeout_shl2, MAX_NUM_PASSES, kHistoryDepth, fidx,
    Function.update]

/-- Witness: the C2 advance with pending doubling failure instantiated at a concrete channel state. -/
theorem doubling_check_failure_latches_error_stores_and_advances_witness :
    cexDoublingAdvance.auto_last_frequency_ * 1.25 >
      idReadFreq ((cexDoublingAdvance.auto_freq_sum_ + (100 : Nat)) /
        (cexDoublingAdvance.auto_freq_count_ + 1)) ∧
    ((measure_frequency_and_calc_error idReadFreq zeroTable ⟨true, 100⟩
        cexDoublingAdvance).auto_error_ = true ∧
     (measure_frequency_and_calc_error idReadFreq zeroTable ⟨true, 100⟩
        cexDoublingAdvance).autotuner_step_ = cexDoublingAdvance.autotuner_step_ + 1 ∧
     (measure_frequency_and_calc_error idReadFreq zeroTable ⟨true, 100⟩
        cexDoublingAdvance).auto_calibration_data_
          (fidx (cexDoublingAdvance.autotuner_step_ - DAC_VOLT_3m)) =
       wrap16 cexDoublingAdvance.auto_DAC_offset_error_) :=
  ⟨by norm_num [cexDoublingAdvance, initState, idReadFreq],
   doubling_check_failure_latches_error_stores_and_advances idReadFreq zeroTable
     ⟨true, 100⟩ cexDoublingAdvance (by decide) (by decide) rfl (by decide) (by decide)
     (by norm_num [cexDoublingAdvance, initState, idReadFreq])⟩

/-- Witness: the C3 guard characterization instantiated at a concrete advancing state. -/
theorem doubling_check_guard_characterization_witness :
    cexDoublingAdvance.ticks_since_last_freq_ ≤ ERROR_TIMEOUT ∧
    (measure_frequency_and_calc_error idReadFreq zeroTable ⟨true, 100⟩
        cexDoublingAdvance).auto_error_ =
      (cexDoublingAdvance.auto_error_ ||
        (decide (DAC_VOLT_2m < cexDoublingAdvance.autotuner_step_) &&
         decide (cexDoublingAdvance.auto_last_frequency_ * 1.25 >
           idReadFreq ((cexDoublingAdvance.auto_freq_sum_ + (100 : Nat)) /
             (cexDoublingAdvance.auto_freq_count_ + 1))))) :=
  ⟨by decide,
   doubling_check_guard_characterization idReadFreq zeroTable ⟨true, 100⟩
     cexDoublingAdvance (by decide) (by decide) rfl (by decide) (by decide) (by decide)⟩

/-- C5 counterexample: in BASELINE the 10th emit (pass counter at 9, counting the nine previous emits) does not snapshot: the step stays at BASELINE and the target table remains all zero, though the claim says the snapshot happens after exactly 10 emits. -/
theorem baseline_no_snapshot_on_tenth_emit :
    (measure_frequency_and_calc_error idReadFreq zeroTable ⟨true, 100⟩
        cexBaselineTenth).autotuner_step_ = DAC_VOLT_0_BASELINE ∧
    (measure_frequency_and_calc_error idReadFreq zeroTable ⟨true, 100⟩
        cexBaselineTenth).auto_num_passes_ = 10 ∧
    List.ofFn (measure_frequency_and_calc_error idReadFreq zeroTable ⟨true, 100⟩
        cexBaselineTenth).auto_target_frequencies_ = [0, 0, 0, 0, 0, 0, 0, 0, 0, 0, 0] := by
  norm_num [measure_frequency_and_calc_error, auto_frequency, cexBaselineTenth, initState,
    idReadFreq, zeroTable, wait_window, history_push,
    DAC_VOLT_3m, DAC_VOLT_2m, DAC_VOLT_0_ARM, DAC_VOLT_0_BASELINE, DAC_VOLT_6,
    error_timeout_val, wait_window_val_255, freq_measure_timeout_shr2,
    freq_measure_timeout_shl2, MAX_NUM_PASSES, kHistoryDepth, List.ofFn_const]

/-- Witness: the C5 snapshot characterization instantiated at a concrete baseline state on its 12th emit. -/
theorem baseline_snapshot_characterization_witness :
    kHistoryDepth < witBaselineSnap.auto_num_passes_ ∧
    ((kHistoryDepth < witBaselineSnap.auto_num_passes_ →
       (measure_frequency_and_calc_error idReadFreq zeroTable ⟨true, 100⟩
           witBaselineSnap).autotuner_step_ = DAC_VOLT_3m ∧
       (measure_frequency_and_calc_error idReadFreq zeroTable ⟨true, 100⟩
           witBaselineSnap).auto_last_frequency_ =
         idReadFreq ((witBaselineSnap.auto_freq_sum_ + (100 : Nat)) /
           (witBaselineSnap.auto_freq_count_ + 1)) ∧
       (measure_frequency_and_calc_error idReadFreq zeroTable ⟨true, 100⟩
           witBaselineSnap).auto_target_frequencies_ =
         set_target_frequencies get_voltage_scaling
           ((idReadFreq ((witBaselineSnap.auto_freq_sum_ + (100 : Nat)) /
               (witBaselineSnap.auto_freq_count_ + 1)) +
             (history_push (idReadFreq ((witBaselineSnap.auto_freq_sum_ + (100 : Nat)) /
               (witBaselineSnap.auto_freq_count_ + 1))) witBaselineSnap.history_).sum) /
            ((kHistoryDepth : ℚ) + 1)) ∧
       (measure_frequency_and_calc_error idReadFreq zeroTable ⟨true, 100⟩
           witBaselineSnap).auto_num_passes_ = 0) ∧
     (witBaselineSnap.auto_num_passes_ ≤ kHistoryDepth →
       (measure_frequency_and_calc_error idReadFreq zeroTable ⟨true, 100⟩
           witBaselineSnap).autotuner_step_ = DAC_VOLT_0_BASELINE ∧
       (measure_frequency_and_calc_error idReadFreq zeroTable ⟨true, 100⟩
           witBaselineSnap).auto_num_passes_ = witBaselineSnap.auto_num_passes_ + 1 ∧
       (measure_frequency_and_calc_error idReadFreq zeroTable ⟨true, 100⟩
           witBaselineSnap).auto_target_frequencies_ =
         witBaselineSnap.auto_target_frequencies_)) :=
  ⟨by decide,
   baseline_snapshot_characterization idReadFreq zeroTable ⟨true, 100⟩ witBaselineSnap
     rfl rfl (by decide)⟩

/-- Witness: the C7 DONE entry instantiated at a concrete commit state with all octave entries written. -/
theorem done_entry_selects_auto_calibration_witness :
    (measure_frequency_and_calc_error idReadFreq zeroTable ⟨false, 0⟩
        commitDoneState).autotuner_step_ = AUTO_CALIBRATION_STEP_LAST + 1 ∧
    ((measure_frequency_and_calc_error idReadFreq zeroTable ⟨false, 0⟩
        commitDoneState).autotune_completed_ = true ∧
     (measure_frequency_and_calc_error idReadFreq zeroTable ⟨false, 0⟩
        commitDoneState).dac_live_auto_ = true) :=
  ⟨by decide,
   done_entry_selects_auto_calibration idReadFreq zeroTable ⟨false, 0⟩ commitDoneState
     rfl (by decide)⟩

/-- Witness: the C10 latch instantiated at a concrete armed state just past the timeout. -/
theorem no_signal_error_latches_in_arm_witness :
    ERROR_TIMEOUT < armedTimeoutState.ticks_since_last_freq_ ∧
    ((Update idReadFreq zeroTable ⟨false, 0⟩ armedTimeoutState).auto_error_ = true ∧
     (Update idReadFreq zeroTable ⟨false, 0⟩ armedTimeoutState).autotuner_step_ =
       DAC_VOLT_0_ARM) :=
  ⟨by decide,
   no_signal_error_latches_in_arm idReadFreq zeroTable ⟨false, 0⟩ armedTimeoutState
     (by decide) (by decide) (by decide)⟩

end OCRefs
